import Mathlib

/-!
Shallow embedding of `src/parser4.py` (Magento_Parser): the audit
classifier and aggregator `parse_lighthouse_json`, its collaborators
`fetch_json_from_api` and `generate_questions`, the two static lookup
tables, and the button-handler configuration check.

Python dictionaries are modelled as insertion-ordered association lists;
JSON numbers in `metricSavings` are modelled as integers (milliseconds);
fallible Python operations are modelled with explicit outcome types.
-/

set_option maxRecDepth 65536

namespace MagentoParser

/-- One audit entry of the report: `title` (a missing key reads as Python
`None`) and the `metricSavings` mapping from metric name to a number of
milliseconds (missing key modelled as the empty list). -/
structure AuditEntry where
  title : Option String
  metricSavings : List (String × Int)
deriving Repr, DecidableEq

/-- The `audits` mapping of the report, in insertion order. -/
abbrev Audits := List (String × AuditEntry)

/-- The `lighthouseResult` object; `audits` may be a missing key. -/
structure LighthouseResult where
  audits : Option Audits
deriving Repr, DecidableEq

/-- The decoded API response, restricted to what the code reads:
`otherKeys` counts keys other than `lighthouseResult` (so that Python
dictionary truthiness is representable), and `lighthouseResult` may be a
missing key. -/
structure ReportData where
  otherKeys : Nat
  lighthouseResult : Option LighthouseResult
deriving Repr, DecidableEq

/-- Python truthiness of the decoded dictionary: nonempty. -/
def ReportData.truthy (d : ReportData) : Bool :=
  d.otherKeys != 0 || d.lighthouseResult.isSome

/-- Models the line
`data.get("lighthouseResult", \x7b\x7d).get("audits", \x7b\x7d)`. -/
def ReportData.auditsOf (d : ReportData) : Audits :=
  match d.lighthouseResult with
  | none => []
  | some lr => lr.audits.getD []

/-- The `PRIORITY_MAPPING` constant of the source, lines 54-59. -/
def PRIORITY_MAPPING : List (String × String) :=
  [("FCP", "High"), ("LCP", "Medium"), ("CLS", "Medium"), ("TBT", "Low")]

/-- The `ADDRESSABLE_ISSUES` constant of the source, lines 61-75. -/
def ADDRESSABLE_ISSUES : List (String × List String) :=
  [("modern-image-formats",
     ["Convert the images: Use an image conversion tool to parse the image URLs and convert the images to the WebP format.",
      "Update the Codebase: Replace the original image URLs with the WebP image URLs for improved performance."]),
   ("unminified-javascript",
     ["1. Go to Stores > Configuration > Advanced > Developer > JavaScript Settings.",
      "2. Set Minify JavaScript Files to \x27Yes\x27."]),
   ("render-blocking-resources",
     ["Optimize loading order:",
      "1. Go to Stores > Configuration > Advanced > Developer > JavaScript Settings.",
      "2. Enable \x27Deferred JavaScript Loading\x27 if available."])]

/-- Models `PRIORITY_MAPPING.get(audit_id, "Unknown")` (line 147/164):
the lookup key is the audit id, not a metric name. -/
def priorityOf (auditId : String) : String :=
  ((PRIORITY_MAPPING.lookup auditId).getD "Unknown")

/-- Models `savings = sum(metric_savings.values())` (line 146/163). -/
def savingsOf (e : AuditEntry) : Int :=
  (e.metricSavings.map Prod.snd).sum

/-- Models `not any(metric_savings.values())` (line 143/160): true when
the mapping is empty or every value is zero; such an entry is skipped. -/
def isSkipped (e : AuditEntry) : Bool :=
  e.metricSavings.all fun p => p.2 == 0

/-- Python rendering of `audit_data.get("title")` inside an f-string:
a missing key prints as `None`. -/
def pyStrOpt : Option String → String
  | none => "None"
  | some s => s

/-- Models the format specifier `:.2f` applied to an integer number of
milliseconds, as in `f"...: 500.00 ms"`. -/
def format2f (n : Int) : String := toString n ++ ".00"

/-- Models `f"...: X.YZ seconds"` where the value is `total / 1000`
rendered with two decimal places. Totals are non-negative sums of the
integer metric values; the rendering truncates to centiseconds, which
agrees with Python true division followed by two-decimal formatting on
every total that is a multiple of 10 ms. -/
def formatSeconds (n : Int) : String :=
  let c : Nat := n.natAbs / 10
  (if n < 0 then "-" else "")
    ++ toString (c / 100) ++ "."
    ++ (if c % 100 < 10 then "0" else "") ++ toString (c % 100)

/-- The output block for an addressable audit (lines 151-156):
title, priority, savings in ms, then the remediation lines each
prefixed with a dash. -/
def addressableBlock (auditId : String) (e : AuditEntry) : String :=
  let solutions := String.intercalate "\n"
    (((ADDRESSABLE_ISSUES.lookup auditId).getD []).map (fun line => "- " ++ line))
  pyStrOpt e.title ++ " (" ++ priorityOf auditId ++ " priority)\n"
    ++ "Potential Savings: " ++ format2f (savingsOf e) ++ " ms\nSolution:\n"
    ++ solutions ++ "\n"

/-- The output block for a manual audit (lines 170-175): title, priority,
savings in ms, then the text the question generator produced for the
title, prefixed with a dash. `gen` abstracts the rendered result of
`generate_questions(audit_data.get("title"))`. -/
def manualBlock (gen : Option String → String) (auditId : String) (e : AuditEntry) : String :=
  pyStrOpt e.title ++ " (" ++ priorityOf auditId ++ " priority)\n"
    ++ "Potential Savings: " ++ format2f (savingsOf e) ++ " ms\nGenerated Question:\n- "
    ++ gen e.title ++ "\n"

/-- First loop of `parse_lighthouse_json` (lines 141-156): walks the
audits in order, skips all-zero entries, and for each addressable audit
accumulates its savings into the admin total and emits its block. -/
def addressablePass : Audits → Int × List String
  | [] => (0, [])
  | (auditId, e) :: rest =>
    let tail := addressablePass rest
    if isSkipped e then tail
    else if (ADDRESSABLE_ISSUES.lookup auditId).isSome then
      (savingsOf e + tail.1, addressableBlock auditId e :: tail.2)
    else tail

/-- Second loop of `parse_lighthouse_json` (lines 158-175): walks the
audits in order, skips all-zero entries and addressable audits, and for
each remaining (manual) audit accumulates its savings into the manual
total and emits its block with a generated question. -/
def manualPass (gen : Option String → String) : Audits → Int × List String
  | [] => (0, [])
  | (auditId, e) :: rest =>
    let tail := manualPass gen rest
    if isSkipped e then tail
    else if (ADDRESSABLE_ISSUES.lookup auditId).isSome then tail
    else (savingsOf e + tail.1, manualBlock gen auditId e :: tail.2)

/-- The accumulated `total_time_saved_admin` after both loops. -/
def total_time_saved_admin (audits : Audits) : Int :=
  (addressablePass audits).1

/-- The accumulated `total_time_saved_manual` after both loops. -/
def total_time_saved_manual (gen : Option String → String) (audits : Audits) : Int :=
  (manualPass gen audits).1

/-- The final summary block (lines 177-181). -/
def combinedSavingsBlock (admin manual : Int) : String :=
  "Total Admin Panel Savings: " ++ formatSeconds admin ++ " seconds\n"
    ++ "Total Manual Intervention Savings: " ++ formatSeconds manual ++ " seconds\n"
    ++ "Total Combined Savings: " ++ formatSeconds (admin + manual) ++ " seconds"

/-- What the HTTP layer produced, as seen inside `fetch_json_from_api`:
a decoded JSON body, a raised `requests.exceptions.RequestException`
(timeout, DNS failure, non-2xx via `raise_for_status`), or a raised
`json.JSONDecodeError` from an invalid body. -/
inductive FetchOutcome where
  | ok (d : ReportData)
  | requestException (err : String)
  | jsonDecodeError
deriving Repr, DecidableEq

/-- The value `fetch_json_from_api` returns: either the decoded JSON or
one of its two error strings. The Python function returns in every case;
it never re-raises. -/
inductive FetchResult where
  | json (d : ReportData)
  | errorString (s : String)
deriving Repr, DecidableEq

/-- Models `fetch_json_from_api` (lines 77-86): the try body returns the
decoded JSON; the two except clauses return their respective strings. -/
def fetch_json_from_api : FetchOutcome → FetchResult
  | .ok d => .json d
  | .requestException err => .errorString ("Error fetching data: " ++ err)
  | .jsonDecodeError => .errorString "Failed to decode JSON. Please check the API response."

/-- How a call to `parse_lighthouse_json` ends: it returns the fixed
no-data sentinel having emitted nothing, or it emits its list of
`st.text_area` blocks (audit blocks then the summary block) and returns
None, or it raises `AttributeError` (calling `.get` on a string). -/
inductive ParseResult where
  | noData
  | report (blocks : List String)
  | attributeError
deriving Repr, DecidableEq

/-- Models `parse_lighthouse_json` (lines 131-182). `data` is what the
fetch returned. The guard `if not data` tests Python truthiness: an
error string is nonempty, hence truthy, and the subsequent
`data.get(...)` on a string raises `AttributeError`. On a truthy
dictionary the two loops run and the summary block is emitted last. -/
def parse_lighthouse_json (gen : Option String → String) (data : FetchResult) : ParseResult :=
  match data with
  | .errorString s => if s = "" then .noData else .attributeError
  | .json d =>
    if !d.truthy then .noData
    else
      let audits := d.auditsOf
      let a := addressablePass audits
      let m := manualPass gen audits
      .report (a.2 ++ m.2 ++ [combinedSavingsBlock a.1 m.1])

/-- What the model backend did when invoked inside `generate_questions`:
`llm.invoke(prompt).content` produced a response text, or the call
raised (auth, timeout, malformed response) with some message. -/
inductive LLMOutcome where
  | response (text : String)
  | failure (err : String)
deriving Repr, DecidableEq

/-- The value `generate_questions` returns: `questionSet line` stands for
the Python singleton set containing the stripped line (`questions[1]`),
and `errorList msg` stands for the list holding one error dictionary
whose value is `msg`. -/
inductive GenResult where
  | questionSet (line : String)
  | errorList (msg : String)
deriving Repr, DecidableEq

/-- Splits a character list at newline characters (the separator is
dropped), keeping empty segments. -/
def splitCharsOnNl : List Char → List (List Char)
  | [] => [[]]
  | c :: rest =>
    if c = '\n' then [] :: splitCharsOnNl rest
    else
      match splitCharsOnNl rest with
      | [] => [[c]]
      | h :: t => (c :: h) :: t

/-- Models `response.splitlines()` with `"\n"` as the line break. -/
def splitlines (s : String) : List String :=
  (splitCharsOnNl s.data).map fun cs => ⟨cs⟩

/-- Drops leading whitespace characters. -/
def dropLeadingWs : List Char → List Char
  | [] => []
  | c :: rest => if c.isWhitespace then dropLeadingWs rest else c :: rest

/-- Models Python `line.strip()`: whitespace removed from both ends. -/
def pyStrip (s : String) : String :=
  ⟨(dropLeadingWs (dropLeadingWs s.data).reverse).reverse⟩

/-- The stripped non-empty lines of the response, in order: models the
loop over `response.splitlines()` keeping each `line.strip()` that is
non-empty. -/
def nonEmptyStrippedLines (text : String) : List String :=
  ((splitlines text).map pyStrip).filter (fun l => l ≠ "")

/-- Models `generate_questions` (lines 97-128): on a backend response it
collects the stripped non-empty lines and returns element `questions[1]`
(the second one); with fewer than two such lines, `questions[1]` raises
`IndexError("list index out of range")`, which the except clause turns
into the error value. A backend failure is turned into the error value
with the exception message. -/
def generate_questions (outcome : LLMOutcome) : GenResult :=
  match outcome with
  | .failure err => .errorList ("Error generating questions: " ++ err)
  | .response text =>
    match (nonEmptyStrippedLines text).get? 1 with
    | some q => .questionSet q
    | none => .errorList "Error generating questions: list index out of range"

/-- First non-empty stripped line of a response. The spec describes the
generator as returning this; used to compare the code against that
description. -/
def firstNonEmptyLine (text : String) : Option String :=
  (nonEmptyStrippedLines text).head?

/-- The environment variables the program reads (lines 14-19): `none`
models an unset variable. `AWS_ACCESS_KEY` and `AWS_SECRET_KEY` are the
model-backend credentials. -/
structure Env where
  pagespeedKey : Option String
  awsAccessKey : Option String
  awsSecretKey : Option String
deriving Repr, DecidableEq

/-- How a press of the Run Audit button ends: a user-visible
configuration error via `st.error`, or a call to `parse_lighthouse_json`
whose first action is the outbound fetch. -/
inductive RunOutcome where
  | configError (msg : String)
  | fetchAttempted
deriving Repr, DecidableEq

/-- Python truthiness of `os.getenv`: unset or empty is falsy. -/
def keyTruthy : Option String → Bool
  | none => false
  | some s => s ≠ ""

/-- Models the button handler (lines 188-193): only `PAGESPEED_API_KEY`
is tested; when it is truthy the handler calls `parse_lighthouse_json`,
which immediately performs the network fetch. The module-level
`initialize_bedrock_llm()` never surfaces a user-visible error for
missing model-backend credentials (its except clause only prints to the
console, and credential validation is deferred to invocation time), so
the handler is the only configuration check. -/
def run_audit (env : Env) : RunOutcome :=
  if keyTruthy env.pagespeedKey then .fetchAttempted
  else .configError "PAGESPEED_API_KEY is not set. Please configure it in your environment."

/-- Follows the words of the spec, for comparison in claim C2: a single
in-order pass over the audits map producing one block per non-skipped
entry, addressable and manual blocks interleaved in that order. -/
def specInterleavedBlocks (gen : Option String → String) (audits : Audits) : List String :=
  audits.filterMap fun p =>
    if isSkipped p.2 then none
    else if (ADDRESSABLE_ISSUES.lookup p.1).isSome then some (addressableBlock p.1 p.2)
    else some (manualBlock gen p.1 p.2)

/-- The sum of `savings` over the non-skipped entries of the map. -/
def sumNonSkippedSavings (audits : Audits) : Int :=
  ((audits.filter (fun p => !isSkipped p.2)).map (fun p => savingsOf p.2)).sum

/-- A fixed rendered-question function used for concrete runs. -/
def genConst : Option String → String := fun _ => "Q"

/-- The audits map of the worked example of the spec (claim C3): two
entries, each without a title key. -/
def exampleAudits : Audits :=
  [("modern-image-formats", ⟨none, [("LCP", 500)]⟩),
   ("unknown-audit", ⟨none, [("FCP", 200)]⟩)]

/-- The worked example report wrapping `exampleAudits`. -/
def exampleReport : ReportData :=
  ⟨0, some ⟨some exampleAudits⟩⟩

/-- The last emitted block of a run, when any block was emitted: for a
normal run this is the summary block. -/
def lastBlockOf (r : ParseResult) : Option String :=
  match r with
  | .report bs => bs.getLast?
  | _ => none

/-- A two-entry audits map whose manual entry precedes its addressable
entry, exercising the output order. -/
def orderAudits : Audits :=
  [("x-manual", ⟨some "T1", [("LCP", 100)]⟩),
   ("modern-image-formats", ⟨some "T2", [("FCP", 300)]⟩)]

/-- Report wrapping `orderAudits`. -/
def orderReport : ReportData := ⟨0, some ⟨some orderAudits⟩⟩

theorem passes_fst_sum (gen : Option String → String) (audits : Audits) :
    (addressablePass audits).1 + (manualPass gen audits).1 = sumNonSkippedSavings audits := by
  induction audits with
  | nil => rfl
  | cons hd tl ih =>
    obtain ⟨auditId, e⟩ := hd
    simp only [addressablePass, manualPass, sumNonSkippedSavings, List.filter_cons] at *
    by_cases hs : isSkipped e <;> by_cases ha : (ADDRESSABLE_ISSUES.lookup auditId).isSome <;>
      simp [hs, ha] <;> linarith [ih]

theorem manualPass_fst_congr (gen₁ gen₂ : Option String → String) (audits : Audits) :
    (manualPass gen₁ audits).1 = (manualPass gen₂ audits).1 := by
  induction audits with
  | nil => rfl
  | cons hd tl ih =>
    obtain ⟨auditId, e⟩ := hd
    simp only [manualPass]
    by_cases hs : isSkipped e <;> by_cases ha : (ADDRESSABLE_ISSUES.lookup auditId).isSome <;>
      simp [hs, ha, ih]

theorem addressablePass_snd_eq (audits : Audits) :
    (addressablePass audits).2 =
      (audits.filter fun p => !isSkipped p.2 && (ADDRESSABLE_ISSUES.lookup p.1).isSome).map
        fun p => addressableBlock p.1 p.2 := by
  induction audits with
  | nil => rfl
  | cons hd tl ih =>
    obtain ⟨auditId, e⟩ := hd
    simp only [addressablePass, List.filter_cons]
    by_cases hs : isSkipped e <;> by_cases ha : (ADDRESSABLE_ISSUES.lookup auditId).isSome <;>
      simp [hs, ha, ih]

theorem manualPass_snd_eq (gen : Option String → String) (audits : Audits) :
    (manualPass gen audits).2 =
      (audits.filter fun p => !isSkipped p.2 && !(ADDRESSABLE_ISSUES.lookup p.1).isSome).map
        fun p => manualBlock gen p.1 p.2 := by
  induction audits with
  | nil => rfl
  | cons hd tl ih =>
    obtain ⟨auditId, e⟩ := hd
    simp only [manualPass, List.filter_cons]
    by_cases hs : isSkipped e <;> by_cases ha : (ADDRESSABLE_ISSUES.lookup auditId).isSome <;>
      simp [hs, ha, ih]

theorem skipped_entry_passes (gen : Option String → String) (pre post : Audits)
    (auditId : String) (e : AuditEntry) (h : isSkipped e = true) :
    addressablePass (pre ++ (auditId, e) :: post) = addressablePass (pre ++ post) ∧
    manualPass gen (pre ++ (auditId, e) :: post) = manualPass gen (pre ++ post) := by
  induction pre with
  | nil => exact ⟨by simp [addressablePass, h], by simp [manualPass, h]⟩
  | cons hd tl ih =>
    obtain ⟨id2, e2⟩ := hd
    refine ⟨?_, ?_⟩
    · simp only [List.cons_append, addressablePass, List.append_eq, ih.1]
    · simp only [List.cons_append, manualPass, List.append_eq, ih.2]

/-- C1: for every fetched report and every behaviour of the question
generator, the two accumulated totals `total_time_saved_admin` and
`total_time_saved_manual` (milliseconds) sum to the total of
`savings = sum(metricSavings.values())` over all audit entries that are
not skipped, regardless of how each audit is classified. -/
theorem C1_totals_sum_nonskipped (gen : Option String → String) (d : ReportData) :
    total_time_saved_admin d.auditsOf + total_time_saved_manual gen d.auditsOf
      = sumNonSkippedSavings d.auditsOf :=
  passes_fst_sum gen d.auditsOf

/-- C4 (code bug): when the fetch stage fails with a network error, the
fetch returns a truthy error string, the guard `if not data` does not
fire, and `data.get("lighthouseResult", ...)` on a string raises
`AttributeError`; the classifier neither returns the sentinel
"No data fetched from API." nor completes any processing. -/
theorem C4_fetch_error_raises :
    parse_lighthouse_json genConst (fetch_json_from_api (.requestException "timeout"))
      = .attributeError ∧
    parse_lighthouse_json genConst (fetch_json_from_api (.requestException "timeout"))
      ≠ .noData :=
  ⟨rfl, by decide⟩

/-- C5: an audit entry whose `metricSavings` is empty or all-zero is
skipped entirely, wherever it occurs in the audits map: the run with
the entry equals the run without it (same blocks emitted), and both
accumulated totals are unchanged. -/
theorem C5_skipped_entry_no_effect (gen : Option String → String) (k : Nat)
    (pre post : Audits) (auditId : String) (e : AuditEntry) (h : isSkipped e = true) :
    parse_lighthouse_json gen (.json ⟨k, some ⟨some (pre ++ (auditId, e) :: post)⟩⟩)
      = parse_lighthouse_json gen (.json ⟨k, some ⟨some (pre ++ post)⟩⟩) ∧
    total_time_saved_admin (pre ++ (auditId, e) :: post)
      = total_time_saved_admin (pre ++ post) ∧
    total_time_saved_manual gen (pre ++ (auditId, e) :: post)
      = total_time_saved_manual gen (pre ++ post) := by
  obtain ⟨h1, h2⟩ := skipped_entry_passes gen pre post auditId e h
  refine ⟨?_, ?_, ?_⟩
  · simp [parse_lighthouse_json, ReportData.truthy, ReportData.auditsOf, h1, h2]
  · simp [total_time_saved_admin, h1]
  · simp [total_time_saved_manual, h2]

/-- Witness for C5 at a concrete input: the all-zero entry
`CLS = 0, TBT = 0` placed before a nonzero entry changes nothing. -/
theorem C5_skipped_entry_no_effect_witness :
    isSkipped ⟨some "Z", [("CLS", 0), ("TBT", 0)]⟩ = true ∧
    (parse_lighthouse_json genConst
        (.json ⟨0, some ⟨some ([] ++ ("zero-audit", ⟨some "Z", [("CLS", 0), ("TBT", 0)]⟩)
          :: [("x-manual", ⟨some "T", [("LCP", 1)]⟩)])⟩⟩)
      = parse_lighthouse_json genConst
        (.json ⟨0, some ⟨some ([] ++ [("x-manual", ⟨some "T", [("LCP", 1)]⟩)])⟩⟩) ∧
    total_time_saved_admin ([] ++ ("zero-audit", ⟨some "Z", [("CLS", 0), ("TBT", 0)]⟩)
        :: [("x-manual", ⟨some "T", [("LCP", 1)]⟩)])
      = total_time_saved_admin ([] ++ [("x-manual", ⟨some "T", [("LCP", 1)]⟩)]) ∧
    total_time_saved_manual genConst ([] ++ ("zero-audit", ⟨some "Z", [("CLS", 0), ("TBT", 0)]⟩)
        :: [("x-manual", ⟨some "T", [("LCP", 1)]⟩)])
      = total_time_saved_manual genConst ([] ++ [("x-manual", ⟨some "T", [("LCP", 1)]⟩)])) :=
  ⟨by decide,
   C5_skipped_entry_no_effect genConst 0 [] [("x-manual", ⟨some "T", [("LCP", 1)]⟩)]
     "zero-audit" ⟨some "Z", [("CLS", 0), ("TBT", 0)]⟩ (by decide)⟩

/-- C7: inside `fetch_json_from_api`, a network failure and an invalid
JSON body are caught by two distinct except clauses returning two
distinct descriptive strings; both cases return instead of raising. -/
theorem C7_fetch_error_strings_distinct (err : String) :
    fetch_json_from_api (.requestException err)
      = .errorString ("Error fetching data: " ++ err) ∧
    fetch_json_from_api .jsonDecodeError
      = .errorString "Failed to decode JSON. Please check the API response." ∧
    ("Error fetching data: " ++ err)
      ≠ "Failed to decode JSON. Please check the API response." := by
  refine ⟨rfl, rfl, ?_⟩
  intro h
  have h2 := congrArg String.data h
  rw [String.data_append] at h2
  have h3 := congrArg List.head? h2
  simp at h3

/-- C2 counterexample: with the manual audit first in the map, the run
emits the addressable block first anyway, while the single in-order pass
the spec describes would emit the manual block first; the two block
sequences differ. -/
theorem C2_counterexample :
    parse_lighthouse_json genConst (.json orderReport) =
      .report [addressableBlock "modern-image-formats" ⟨some "T2", [("FCP", 300)]⟩,
               manualBlock genConst "x-manual" ⟨some "T1", [("LCP", 100)]⟩,
               combinedSavingsBlock 300 100] ∧
    specInterleavedBlocks genConst orderAudits =
      [manualBlock genConst "x-manual" ⟨some "T1", [("LCP", 100)]⟩,
       addressableBlock "modern-image-formats" ⟨some "T2", [("FCP", 300)]⟩] ∧
    addressableBlock "modern-image-formats" ⟨some "T2", [("FCP", 300)]⟩
      ≠ manualBlock genConst "x-manual" ⟨some "T1", [("LCP", 100)]⟩ :=
  ⟨rfl, rfl, by decide⟩

/-- C2 as amended: the output blocks are grouped by classification, not
interleaved: first every addressable block in the insertion order of the
audits map, then every manual block in that order, then the summary
block. -/
theorem C2_blocks_grouped (gen : Option String → String) (d : ReportData)
    (h : d.truthy = true) :
    parse_lighthouse_json gen (.json d) = .report
      (((d.auditsOf.filter fun p =>
            !isSkipped p.2 && (ADDRESSABLE_ISSUES.lookup p.1).isSome).map fun p =>
          addressableBlock p.1 p.2)
        ++ ((d.auditsOf.filter fun p =>
            !isSkipped p.2 && !(ADDRESSABLE_ISSUES.lookup p.1).isSome).map fun p =>
          manualBlock gen p.1 p.2)
        ++ [combinedSavingsBlock (total_time_saved_admin d.auditsOf)
              (total_time_saved_manual gen d.auditsOf)]) := by
  simp [parse_lighthouse_json, h, addressablePass_snd_eq, manualPass_snd_eq,
    total_time_saved_admin, total_time_saved_manual]

/-- Witness for C2 as amended, at the two-entry map `orderAudits`. -/
theorem C2_blocks_grouped_witness :
    orderReport.truthy = true ∧
    parse_lighthouse_json genConst (.json orderReport) = .report
      (((orderReport.auditsOf.filter fun p =>
            !isSkipped p.2 && (ADDRESSABLE_ISSUES.lookup p.1).isSome).map fun p =>
          addressableBlock p.1 p.2)
        ++ ((orderReport.auditsOf.filter fun p =>
            !isSkipped p.2 && !(ADDRESSABLE_ISSUES.lookup p.1).isSome).map fun p =>
          manualBlock genConst p.1 p.2)
        ++ [combinedSavingsBlock (total_time_saved_admin orderReport.auditsOf)
              (total_time_saved_manual genConst orderReport.auditsOf)]) :=
  ⟨rfl, C2_blocks_grouped genConst orderReport rfl⟩

/-- C3 counterexample: on the worked example the addressable block
carries priority "Unknown", not "Medium": the lookup key into
`PRIORITY_MAPPING` is the audit id `modern-image-formats`, which is not
among its metric-name keys. -/
theorem C3_counterexample :
    parse_lighthouse_json genConst (.json exampleReport) = .report
      ["None (Unknown priority)\nPotential Savings: 500.00 ms\nSolution:\n- Convert the images: Use an image conversion tool to parse the image URLs and convert the images to the WebP format.\n- Update the Codebase: Replace the original image URLs with the WebP image URLs for improved performance.\n",
       "None (Unknown priority)\nPotential Savings: 200.00 ms\nGenerated Question:\n- Q\n",
       "Total Admin Panel Savings: 0.50 seconds\nTotal Manual Intervention Savings: 0.20 seconds\nTotal Combined Savings: 0.70 seconds"] ∧
    priorityOf "modern-image-formats" = "Unknown" ∧
    priorityOf "modern-image-formats" ≠ "Medium" :=
  ⟨rfl, rfl, by decide⟩

/-- C3 as amended: on the worked example, whatever the question
generator renders, the run produces one addressable block with priority
"Unknown" and savings 500.00 ms holding both remediation lines, one
manual block with priority "Unknown" and savings 200.00 ms holding the
generated question, and the summary 0.50 / 0.20 / 0.70 seconds. -/
theorem C3_example_run (gen : Option String → String) :
    parse_lighthouse_json gen (.json exampleReport) = .report
      ["None (Unknown priority)\nPotential Savings: 500.00 ms\nSolution:\n- Convert the images: Use an image conversion tool to parse the image URLs and convert the images to the WebP format.\n- Update the Codebase: Replace the original image URLs with the WebP image URLs for improved performance.\n",
       "None (Unknown priority)\nPotential Savings: 200.00 ms\nGenerated Question:\n- " ++ gen none ++ "\n",
       "Total Admin Panel Savings: 0.50 seconds\nTotal Manual Intervention Savings: 0.20 seconds\nTotal Combined Savings: 0.70 seconds"] := by
  have h0 : parse_lighthouse_json gen (.json exampleReport) = .report
      ((addressablePass exampleAudits).2 ++ (manualPass gen exampleAudits).2
        ++ [combinedSavingsBlock (addressablePass exampleAudits).1
              (manualPass gen exampleAudits).1]) := rfl
  have h1 : (addressablePass exampleAudits).2
      = ["None (Unknown priority)\nPotential Savings: 500.00 ms\nSolution:\n- Convert the images: Use an image conversion tool to parse the image URLs and convert the images to the WebP format.\n- Update the Codebase: Replace the original image URLs with the WebP image URLs for improved performance.\n"] := rfl
  have h2 : (manualPass gen exampleAudits).2
      = ["None (Unknown priority)\nPotential Savings: 200.00 ms\nGenerated Question:\n- " ++ gen none ++ "\n"] := rfl
  have hm : (manualPass gen exampleAudits).1 = 200 :=
    (manualPass_fst_congr gen genConst exampleAudits).trans (by decide)
  have h3 : combinedSavingsBlock (addressablePass exampleAudits).1 (200 : Int)
      = "Total Admin Panel Savings: 0.50 seconds\nTotal Manual Intervention Savings: 0.20 seconds\nTotal Combined Savings: 0.70 seconds" := rfl
  rw [h0, h1, h2, hm, h3]
  rfl

/-- C6 counterexample: for the two-line response the generator returns
the second non-empty line (as a singleton set value), not the first
line. -/
theorem C6_counterexample :
    generate_questions (.response "A\nB") = .questionSet "B" ∧
    firstNonEmptyLine "A\nB" = some "A" ∧
    GenResult.questionSet "B" ≠ GenResult.questionSet "A" :=
  ⟨rfl, rfl, by decide⟩

/-- C6 as amended: the generator returns the second non-empty stripped
line of the response, wrapped as a singleton set; with fewer than two
non-empty lines the `questions[1]` access raises IndexError, which is
caught and returned as the error value, and a backend failure is
likewise returned as an error-prefixed value through the same channel;
no case raises to the caller. -/
theorem C6_second_line_or_error (text err q : String)
    (h : (nonEmptyStrippedLines text).get? 1 = some q) :
    generate_questions (.response text) = .questionSet q ∧
    generate_questions (.failure err)
      = .errorList ("Error generating questions: " ++ err) ∧
    (∀ t : String, (nonEmptyStrippedLines t).length < 2 →
      generate_questions (.response t)
        = .errorList "Error generating questions: list index out of range") := by
  refine ⟨?_, rfl, ?_⟩
  · simp only [generate_questions]
    rw [h]
  · intro t ht
    simp only [generate_questions]
    rw [List.get?_eq_none.mpr (by omega : (nonEmptyStrippedLines t).length ≤ 1)]

/-- Witness for C6 as amended at concrete responses. -/
theorem C6_second_line_or_error_witness :
    (nonEmptyStrippedLines "A\nB\nC").get? 1 = some "B" ∧
    generate_questions (.response "A\nB\nC") = .questionSet "B" ∧
    generate_questions (.failure "boom")
      = .errorList ("Error generating questions: " ++ "boom") ∧
    generate_questions (.response "OnlyOne")
      = .errorList "Error generating questions: list index out of range" :=
  have h := C6_second_line_or_error "A\nB\nC" "boom" "B" rfl
  ⟨rfl, h.1, h.2.1, h.2.2 "OnlyOne" (by decide)⟩

/-- C8 counterexample: with the performance-API key set but both
model-backend credentials unset, the button handler proceeds straight to
the fetch (an outbound network call) and shows no configuration
error. -/
theorem C8_counterexample :
    run_audit ⟨some "key123", none, none⟩ = .fetchAttempted ∧
    RunOutcome.fetchAttempted
      ≠ .configError "PAGESPEED_API_KEY is not set. Please configure it in your environment." :=
  ⟨rfl, by decide⟩

/-- C8 as amended: only the performance-API key is checked before the
network call. The outcome of the button press never depends on the
model-backend credentials; an unset or empty performance-API key yields
the user-visible configuration error, and otherwise the fetch is
attempted. -/
theorem C8_only_pagespeed_key_checked (k a₁ a₂ b₁ b₂ : Option String) :
    run_audit ⟨k, a₁, a₂⟩ = run_audit ⟨k, b₁, b₂⟩ ∧
    (keyTruthy k = false →
      run_audit ⟨k, a₁, a₂⟩
        = .configError "PAGESPEED_API_KEY is not set. Please configure it in your environment.") ∧
    (keyTruthy k = true → run_audit ⟨k, a₁, a₂⟩ = .fetchAttempted) := by
  refine ⟨rfl, ?_, ?_⟩ <;> intro h <;> simp [run_audit, h]

/-- C9 counterexample: a truthy report with an empty audits map does not
yield the no-data message; the run emits the summary block with zero
totals. -/
theorem C9_counterexample :
    parse_lighthouse_json genConst (.json ⟨0, some ⟨some []⟩⟩) =
      .report ["Total Admin Panel Savings: 0.00 seconds\nTotal Manual Intervention Savings: 0.00 seconds\nTotal Combined Savings: 0.00 seconds"] ∧
    ParseResult.report ["Total Admin Panel Savings: 0.00 seconds\nTotal Manual Intervention Savings: 0.00 seconds\nTotal Combined Savings: 0.00 seconds"]
      ≠ .noData :=
  ⟨rfl, by decide⟩

/-- C9 as amended: the fixed no-data message is returned exactly when
the fetched value is falsy (the empty JSON object); a truthy report with
no decodable audits instead produces no audit blocks and the zero-total
summary block. -/
theorem C9_no_decodable_audits (gen : Option String → String) (d : ReportData)
    (h : d.auditsOf = []) :
    (d.truthy = true →
      parse_lighthouse_json gen (.json d) = .report [combinedSavingsBlock 0 0]) ∧
    (d.truthy = false → parse_lighthouse_json gen (.json d) = .noData) := by
  refine ⟨?_, ?_⟩ <;> intro ht
  · simp [parse_lighthouse_json, ht, h, addressablePass, manualPass]
  · simp [parse_lighthouse_json, ht]

/-- Witness for C9 as amended: the truthy empty-audits report and the
falsy empty object. -/
theorem C9_no_decodable_audits_witness :
    (⟨0, some ⟨some []⟩⟩ : ReportData).auditsOf = [] ∧
    (⟨0, some ⟨some []⟩⟩ : ReportData).truthy = true ∧
    parse_lighthouse_json genConst (.json ⟨0, some ⟨some []⟩⟩)
      = .report [combinedSavingsBlock 0 0] ∧
    (⟨0, none⟩ : ReportData).auditsOf = [] ∧
    (⟨0, none⟩ : ReportData).truthy = false ∧
    parse_lighthouse_json genConst (.json ⟨0, none⟩) = .noData :=
  ⟨rfl, rfl, (C9_no_decodable_audits genConst ⟨0, some ⟨some []⟩⟩ rfl).1 rfl,
   rfl, rfl, (C9_no_decodable_audits genConst ⟨0, none⟩ rfl).2 rfl⟩

/-- C10: the manual total and the final summary block are a function of
the report alone: two runs on the same report whose question generators
render arbitrarily different texts accumulate the same totals and emit
the identical summary block. -/
theorem C10_summary_deterministic (gen₁ gen₂ : Option String → String) (d : ReportData) :
    total_time_saved_manual gen₁ d.auditsOf = total_time_saved_manual gen₂ d.auditsOf ∧
    lastBlockOf (parse_lighthouse_json gen₁ (.json d))
      = lastBlockOf (parse_lighthouse_json gen₂ (.json d)) := by
  have hm := manualPass_fst_congr gen₁ gen₂ d.auditsOf
  refine ⟨hm, ?_⟩
  by_cases h : d.truthy
  · simp [parse_lighthouse_json, h, lastBlockOf, hm]
  · simp [parse_lighthouse_json, h, lastBlockOf]

end MagentoParser
